import Mathlib

/-
Verification development for the egui/wgpu/winit stub application
(src/main.rs, src/ui.rs).  The Rust sources are shallowly embedded:

* `GpuResources.resize`, `chooseSurfaceFormat`, `chooseAdapter` embed the
  corresponding code in `impl GpuResources` (main.rs lines 177-227);
* `AppResources.draw_ui` embeds the GPU-facing operations issued by
  `AppResources::draw_ui` (main.rs lines 62-91), in program order;
* `App.window_event`, `App.resumed`, `runLoop` embed the winit
  `ApplicationHandler` implementation (main.rs lines 135-164) as a step
  function on an explicit loop state, emitting an ordered trace of the
  externally visible actions;
* `WidgetGallery` embeds the gallery state of ui.rs, with the f32 field
  `scalar` modelled as an exact rational.

External library behaviour (egui's event response, the outcome of
`Surface::get_current_texture`, the window's initial inner size, the
surface capabilities) is supplied through an explicit environment `Env`,
never invented by the model.
-/

namespace EguiStub

/-- winit `PhysicalSize<u32>`: physical pixel dimensions. -/
structure PhysicalSize where
  width : Nat
  height : Nat
deriving DecidableEq

/-- The fields of `wgpu::SurfaceConfiguration` the program stores and
mutates.  `usage` and `view_formats` are constant in the source and
carry no information for the claims. -/
structure SurfaceConfig where
  width : Nat
  height : Nat
  formatCode : Nat
  presentMode : Nat
  alphaMode : Nat
  desiredMaximumFrameLatency : Nat
deriving DecidableEq

/-- The four classified `wgpu::SurfaceError` values that
`Surface::get_current_texture` can return. -/
inductive SurfaceError
  | Lost
  | Outdated
  | Timeout
  | OutOfMemory
deriving DecidableEq

/-- `GpuResources::resize` (main.rs lines 222-226): unconditionally
overwrites the stored width and height and calls `surface.configure`
with the updated configuration.  The result is the new stored
configuration together with the list of `configure` calls issued (in
order), so that "no reconfiguration happened" is expressible as an
empty list. -/
def GpuResources.resize (cfg : SurfaceConfig) (size : PhysicalSize) :
    SurfaceConfig × List SurfaceConfig :=
  let cfg2 : SurfaceConfig :=
    { cfg with width := size.width, height := size.height }
  (cfg2, [cfg2])

/-- A wgpu texture format as the selection code observes it: an opaque
code plus the result of its `is_srgb()` method. -/
structure TextureFormat where
  code : Nat
  is_srgb : Bool
deriving DecidableEq

/-- An adapter as the selection code observes it: an opaque index plus
the result of `is_surface_supported(&surface)`. -/
structure Adapter where
  idx : Nat
  surfaceSupport : Bool
deriving DecidableEq

/-- Surface format selection in `GpuResources::new` (main.rs lines
194-196): `capabilities.formats.iter().copied().filter(|f|
f.is_srgb()).next().unwrap_or(capabilities.formats[0])`.  `none` models
the index panic on an empty capability list. -/
def chooseSurfaceFormat (formats : List TextureFormat) : Option TextureFormat :=
  match (formats.filter (fun f => f.is_srgb)).head? with
  | some f => some f
  | none => formats.head?

/-- Adapter selection in `GpuResources::new` (main.rs lines 185-186):
`instance.enumerate_adapters(..).into_iter().filter(|adapter|
adapter.is_surface_supported(&surface)).next().unwrap()`.  `none` models
the unwrap panic when no enumerated adapter supports the surface. -/
def chooseAdapter (adapters : List Adapter) : Option Adapter :=
  (adapters.filter (fun a => a.surfaceSupport)).head?

/-- The texture delta handed back by `egui::Context::run`: ids of
textures to upload (`set`, kept with their order) and ids of textures to
free (`free`). -/
structure TexturesDelta where
  set : List Nat
  free : List Nat
deriving DecidableEq

/-- GPU-facing operations `AppResources::draw_ui` can issue, in the
order the renderer receives them. -/
inductive GpuOp
  | updateTexture (id : Nat)
  | updateBuffers
  | render
  | freeTexture (id : Nat)
deriving DecidableEq

/-- `AppResources::draw_ui` (main.rs lines 62-91), GPU-facing operation
trace for one frame: it loops over `ui_out.textures_delta.set` calling
`update_texture`, then calls `update_buffers`, then `render`.  The
`free` list of the delta is never read: no `free_texture` call exists in
the source. -/
def AppResources.draw_ui (delta : TexturesDelta) : List GpuOp :=
  (delta.set.map GpuOp.updateTexture) ++ [GpuOp.updateBuffers, GpuOp.render]

/-- egui_winit's `EventResponse`, returned by
`State::on_window_event`. -/
structure EventResponse where
  consumed : Bool
  repaint : Bool
deriving DecidableEq

/-- The window events the handler distinguishes (main.rs lines 150-162);
`other` covers the wildcard arm. -/
inductive WindowEvent
  | closeRequested
  | redrawRequested
  | resized (size : PhysicalSize)
  | other (code : Nat)
deriving DecidableEq

/-- Events delivered by the winit event loop to the handler. -/
inductive Event
  | resumed
  | windowEvent (windowId : Nat) (event : WindowEvent)
deriving DecidableEq

/-- Environment: the behaviour of the external libraries, supplied as
oracles.  `uiResponse` is egui_winit `State::on_window_event`;
`acquireResult` is the outcome of `Surface::get_current_texture` on the
n-th successful-so-far render attempt (`none` = a frame was acquired);
the remaining fields are what `GpuResources::new` reads from the window
and the surface capabilities when building the initial
configuration. -/
structure Env where
  uiResponse : WindowEvent → EventResponse
  acquireResult : Nat → Option SurfaceError
  initialSize : PhysicalSize
  formatCode : Nat
  presentMode : Nat
  alphaMode : Nat

/-- The per-window application resources the model tracks: the created
window's identity (fresh per creation, standing for the OS window
instance / `Window::id`) and the mutable surface configuration. -/
structure AppResources where
  windowId : Nat
  surfaceConfig : SurfaceConfig
deriving DecidableEq

/-- `AppResources::new` (main.rs lines 41-60): creates a window (here:
receives a fresh id) and builds the initial surface configuration from
the window's inner size and the surface capabilities (main.rs lines
198-208, with `desired_maximum_frame_latency: 2`). -/
def AppResources.new (env : Env) (freshId : Nat) : AppResources :=
  { windowId := freshId
    surfaceConfig :=
      { width := env.initialSize.width
        height := env.initialSize.height
        formatCode := env.formatCode
        presentMode := env.presentMode
        alphaMode := env.alphaMode
        desiredMaximumFrameLatency := 2 } }

/-- State of the host process driving the event loop: the `App` struct's
`app_resources: Option<AppResources>` plus the observable loop status (a
fresh-id supply for window creation, the winit exit flag, whether the
process panicked, and how many frames have been rendered). -/
structure LoopState where
  app : Option AppResources
  nextWindowId : Nat
  exited : Bool
  panicked : Bool
  framesRendered : Nat
deriving DecidableEq

/-- `App::new` (main.rs lines 17-21): `app_resources: None`, loop not
yet exited, nothing rendered. -/
def App.new : LoopState :=
  { app := none, nextWindowId := 0, exited := false, panicked := false,
    framesRendered := 0 }

/-- Externally visible actions of one handler invocation, in program
order. -/
inductive Action
  | forwardToUi (event : WindowEvent)
  | requestRedraw
  | exitLoop
  | renderFrame
  | configureSurface (cfg : SurfaceConfig)
  | panicStop
deriving DecidableEq

/-- `AppResources::on_window_event` (main.rs lines 121-132): when the
event's window id matches the application window, forward the event to
the egui_winit state, request a redraw when the response asks for a
repaint, and report the response's `consumed`; for a foreign window id,
do nothing and report not consumed. -/
def AppResources.on_window_event (env : Env) (r : AppResources)
    (event : WindowEvent) (windowId : Nat) : Bool × List Action :=
  if r.windowId = windowId then
    let response := env.uiResponse event
    (response.consumed,
      Action.forwardToUi event ::
        (if response.repaint then [Action.requestRedraw] else []))
  else
    (false, [])

/-- `App::window_event` (main.rs lines 140-163) as a step on the loop
state, returning the successor state and the ordered action trace.
`self.get_app_resources()` unwraps `app_resources` first, so an event
delivered while uninitialized panics before anything else happens.
Otherwise the event goes to `on_window_event`; a consumed event ends the
handler.  A close request exits the loop; a redraw request runs
`do_render().unwrap()` (panic on any surface error, otherwise one frame
rendered) and then requests the next redraw; a resize runs
`GpuResources::resize`; other events do nothing. -/
def App.window_event (env : Env) (s : LoopState) (windowId : Nat)
    (event : WindowEvent) : LoopState × List Action :=
  match s.app with
  | none => ({ s with panicked := true }, [Action.panicStop])
  | some r =>
    let handled := r.on_window_event env event windowId
    if handled.1 then (s, handled.2)
    else
      match event with
      | WindowEvent.closeRequested =>
          ({ s with exited := true }, handled.2 ++ [Action.exitLoop])
      | WindowEvent.redrawRequested =>
          match env.acquireResult s.framesRendered with
          | some _ =>
              ({ s with panicked := true }, handled.2 ++ [Action.panicStop])
          | none =>
              ({ s with framesRendered := s.framesRendered + 1 },
                handled.2 ++ [Action.renderFrame, Action.requestRedraw])
      | WindowEvent.resized size =>
          let res := GpuResources.resize r.surfaceConfig size
          ({ s with app := some { r with surfaceConfig := res.1 } },
            handled.2 ++ res.2.map Action.configureSurface)
      | WindowEvent.other _ => (s, handled.2)

/-- `App::resumed` (main.rs lines 136-138): unconditionally replaces
`app_resources` with a newly built `AppResources` (creating a fresh
window). -/
def App.resumed (env : Env) (s : LoopState) : LoopState :=
  { s with app := some (AppResources.new env s.nextWindowId)
           nextWindowId := s.nextWindowId + 1 }

/-- The winit event loop (`EventLoop::run_app`): feeds events to the
handler until the loop has exited or the process panicked, after which
no further event is processed. -/
def runLoop (env : Env) : LoopState → List Event → LoopState
  | s, [] => s
  | s, e :: rest =>
    if s.exited || s.panicked then s
    else
      match e with
      | Event.resumed => runLoop env (App.resumed env s) rest
      | Event.windowEvent wid we =>
          runLoop env (App.window_event env s wid we).1 rest

/-- The three-variant enumeration of ui.rs. -/
inductive GalleryEnum
  | First
  | Second
  | Third
deriving DecidableEq

/-- `WidgetGallery` state (ui.rs lines 12-20).  The f32 `scalar` is
modelled as an exact rational; `color` is an opaque code; the source
field `open` is spelled `openFlag` (`open` is a Lean keyword). -/
structure WidgetGallery where
  boolean : Bool
  radio : GalleryEnum
  scalar : ℚ
  string : String
  color : Nat
  animate_progress_bar : Bool
  openFlag : Bool
deriving DecidableEq

/-- `Default for WidgetGallery` (ui.rs lines 22-34); the color code
stands for `Color32::LIGHT_BLUE.linear_multiply(0.5)`. -/
def WidgetGallery.default : WidgetGallery :=
  { boolean := false, radio := GalleryEnum.First, scalar := 42,
    string := "", color := 0, animate_progress_bar := false,
    openFlag := true }

/-- The progress-bar fraction computed by `WidgetGallery::ui` (ui.rs
line 134): `let progress = *scalar / 360.0`. -/
def WidgetGallery.progress (g : WidgetGallery) : ℚ :=
  g.scalar / 360

/-- A concrete environment for closed evaluations: the UI neither
consumes events nor asks for repaints, every frame acquisition succeeds,
and the window opens at 800×600. -/
def envOk : Env :=
  { uiResponse := fun _ => { consumed := false, repaint := false }
    acquireResult := fun _ => none
    initialSize := { width := 800, height := 600 }
    formatCode := 0
    presentMode := 0
    alphaMode := 0 }

/-- Once the loop has exited or the process has panicked, no further
event is processed. -/
theorem runLoop_of_halted (env : Env) (s : LoopState) (l : List Event)
    (h : s.exited = true ∨ s.panicked = true) : runLoop env s l = s := by
  cases l with
  | nil => rfl
  | cons e rest =>
    rcases h with h | h <;> simp [runLoop, h]

/-- C1: the claim says a resize to zero width is a guarded no-op that
leaves the stored configuration unchanged; the code has no guard:
resizing the 800×600 configuration to (0, 100) overwrites the stored
configuration and issues a `surface.configure` call carrying the
zero-width (invalid) configuration. -/
theorem c1_resize_zero_width_reconfigures :
    GpuResources.resize
        { width := 800, height := 600, formatCode := 2, presentMode := 1,
          alphaMode := 1, desiredMaximumFrameLatency := 2 }
        { width := 0, height := 100 }
      = ({ width := 0, height := 100, formatCode := 2, presentMode := 1,
           alphaMode := 1, desiredMaximumFrameLatency := 2 },
         [{ width := 0, height := 100, formatCode := 2, presentMode := 1,
            alphaMode := 1, desiredMaximumFrameLatency := 2 }]) := rfl

/-- C2 counterexample: with a frame whose texture delta uploads id 1 and
marks id 7 for removal, the frame's operation trace contains no
`free_texture` call, so the removed texture is not freed before the draw
(it is never freed at all): the deltas are not fully applied. -/
theorem c2_counterexample :
    GpuOp.freeTexture 7 ∉ AppResources.draw_ui { set := [1], free := [7] } := by
  decide

/-- C2 amended: in every frame, each `update_texture` upload from the
delta's `set` list occurs strictly before the frame's `render` call in
the operation trace, and no texture is ever freed (`draw_ui` does not
read the delta's `free` list). -/
theorem c2_uploads_precede_render (delta : TexturesDelta) :
    (∀ i j id,
        (AppResources.draw_ui delta).get? i = some (GpuOp.updateTexture id) →
        (AppResources.draw_ui delta).get? j = some GpuOp.render → i < j) ∧
    ∀ id, GpuOp.freeTexture id ∉ AppResources.draw_ui delta := by
  constructor
  · intro i j id hi hj
    have hlen : i < (delta.set.map GpuOp.updateTexture).length := by
      by_contra hge
      push_neg at hge
      rw [AppResources.draw_ui, List.get?_append_right hge] at hi
      rcases hn : i - (delta.set.map GpuOp.updateTexture).length with _ | _ | _ <;>
        rw [hn] at hi <;> simp at hi
    have hj2 : ¬ j < (delta.set.map GpuOp.updateTexture).length := by
      intro hlt
      rw [AppResources.draw_ui, List.get?_append hlt, List.get?_map] at hj
      rcases hg : delta.set.get? j with _ | v <;> rw [hg] at hj <;> simp at hj
    exact lt_of_lt_of_le hlen (le_of_not_lt hj2)
  · intro id hmem
    rw [AppResources.draw_ui] at hmem
    rcases List.mem_append.mp hmem with hm | hm
    · rcases List.mem_map.mp hm with ⟨v, _, hv⟩
      exact GpuOp.noConfusion hv
    · simp at hm

/-- Witness for the amended C2 at the delta uploading id 4 and removing
id 9: the upload at position 0 precedes the render at position 2, and
texture 9 is never freed. -/
theorem c2_uploads_precede_render_witness :
    (0 : Nat) < 2 ∧
      GpuOp.freeTexture 9 ∉ AppResources.draw_ui { set := [4], free := [9] } :=
  ⟨(c2_uploads_precede_render { set := [4], free := [9] }).1 0 2 4 rfl rfl,
    (c2_uploads_precede_render { set := [4], free := [9] }).2 9⟩

/-- C3 counterexample: running the loop on two resume events leaves a
different window instance than running it on one: the second resume
rebuilds the application resources with a freshly created window. -/
theorem c3_counterexample :
    (runLoop envOk App.new [Event.resumed, Event.resumed]).app.map
        (fun r => r.windowId) ≠
      (runLoop envOk App.new [Event.resumed]).app.map (fun r => r.windowId) := by
  decide

/-- C3 amended: no window event ever creates or replaces the window
instance, but every resume event — not only the first — replaces the
application resources with freshly created ones, so the window after a
second resume is a new instance, not the one from the first. -/
theorem c3_resume_recreates (env : Env) (s : LoopState) (r : AppResources)
    (wid : Nat) (we : WindowEvent) (hs : s.app = some r) :
    (App.window_event env s wid we).1.app.map (fun a => a.windowId)
        = some r.windowId ∧
    (App.resumed env s).app.map (fun a => a.windowId) = some s.nextWindowId ∧
    (App.resumed env (App.resumed env s)).app.map (fun a => a.windowId)
        ≠ (App.resumed env s).app.map (fun a => a.windowId) := by
  obtain ⟨app, nid, ex, pa, fr⟩ := s
  obtain rfl : app = some r := hs
  refine ⟨?_, rfl, by simp [App.resumed, AppResources.new]⟩
  simp only [App.window_event]
  split
  · rfl
  · cases we with
    | closeRequested => rfl
    | redrawRequested =>
        cases env.acquireResult fr <;> rfl
    | resized size => rfl
    | other code => rfl

/-- Witness for the amended C3: after one resume from the fresh state,
an uninteresting window event preserves the window instance, and a
second resume replaces it. -/
theorem c3_resume_recreates_witness :
    (App.window_event envOk (App.resumed envOk App.new) 0
          (WindowEvent.other 0)).1.app.map (fun a => a.windowId)
        = some (AppResources.new envOk 0).windowId ∧
    (App.resumed envOk (App.resumed envOk App.new)).app.map
        (fun a => a.windowId)
        = some (App.resumed envOk App.new).nextWindowId ∧
    (App.resumed envOk (App.resumed envOk (App.resumed envOk App.new))).app.map
        (fun a => a.windowId)
        ≠ (App.resumed envOk (App.resumed envOk App.new)).app.map
            (fun a => a.windowId) :=
  c3_resume_recreates envOk (App.resumed envOk App.new)
    (AppResources.new envOk 0) 0 (WindowEvent.other 0) rfl

/-- A concrete environment in which every frame acquisition fails with
`SurfaceError::Lost`. -/
def envLost : Env :=
  { uiResponse := fun _ => { consumed := false, repaint := false }
    acquireResult := fun _ => some SurfaceError.Lost
    initialSize := { width := 800, height := 600 }
    formatCode := 0
    presentMode := 0
    alphaMode := 0 }

/-- A concrete environment in which the UI consumes every event (and
asks for repaints). -/
def envConsume : Env :=
  { uiResponse := fun _ => { consumed := true, repaint := true }
    acquireResult := fun _ => none
    initialSize := { width := 800, height := 600 }
    formatCode := 0
    presentMode := 0
    alphaMode := 0 }

/-- C4: a redraw request that the UI does not consume and whose frame
acquisition succeeds renders exactly one frame, and the trace ends with
a new redraw request immediately after the render: the continuous
rendering policy. -/
theorem c4_redraw_renders_then_requests (env : Env) (s : LoopState)
    (r : AppResources) (hs : s.app = some r)
    (hc : (env.uiResponse WindowEvent.redrawRequested).consumed = false)
    (ha : env.acquireResult s.framesRendered = none) :
    (App.window_event env s r.windowId
        WindowEvent.redrawRequested).1.framesRendered
      = s.framesRendered + 1 ∧
    ∃ pre, (App.window_event env s r.windowId WindowEvent.redrawRequested).2
      = pre ++ [Action.renderFrame, Action.requestRedraw] := by
  obtain ⟨app, nid, ex, pa, fr⟩ := s
  obtain rfl : app = some r := hs
  refine ⟨?_, Action.forwardToUi WindowEvent.redrawRequested ::
      (if (env.uiResponse WindowEvent.redrawRequested).repaint then
        [Action.requestRedraw] else []), ?_⟩ <;>
    simp [App.window_event, AppResources.on_window_event, hc, ha]

/-- C5: when frame acquisition fails with any of the four surface
errors, the redraw handler panics (`do_render().unwrap()`): no frame is
rendered and no error class is locally recovered. -/
theorem c5_surface_error_panics (env : Env) (s : LoopState)
    (r : AppResources) (e : SurfaceError) (hs : s.app = some r)
    (hc : (env.uiResponse WindowEvent.redrawRequested).consumed = false)
    (ha : env.acquireResult s.framesRendered = some e) :
    (App.window_event env s r.windowId
        WindowEvent.redrawRequested).1.panicked = true ∧
    (App.window_event env s r.windowId
        WindowEvent.redrawRequested).1.framesRendered = s.framesRendered ∧
    Action.renderFrame ∉
      (App.window_event env s r.windowId WindowEvent.redrawRequested).2 := by
  obtain ⟨app, nid, ex, pa, fr⟩ := s
  obtain rfl : app = some r := hs
  cases hrp : (env.uiResponse WindowEvent.redrawRequested).repaint <;>
    simp [App.window_event, AppResources.on_window_event, hc, ha, hrp]

/-- Witness for C5 in the environment whose acquisitions fail with
`Lost`: the first redraw event after the resume panics without
rendering. -/
theorem c5_surface_error_panics_witness :
    (App.window_event envLost (App.resumed envLost App.new)
        (AppResources.new envLost 0).windowId
        WindowEvent.redrawRequested).1.panicked = true ∧
    (App.window_event envLost (App.resumed envLost App.new)
        (AppResources.new envLost 0).windowId
        WindowEvent.redrawRequested).1.framesRendered
      = (App.resumed envLost App.new).framesRendered ∧
    Action.renderFrame ∉
      (App.window_event envLost (App.resumed envLost App.new)
        (AppResources.new envLost 0).windowId WindowEvent.redrawRequested).2 :=
  c5_surface_error_panics envLost (App.resumed envLost App.new)
    (AppResources.new envLost 0) SurfaceError.Lost rfl rfl rfl

/-- C6: a close request that the UI does not consume exits the loop, and
the rest of the run renders no further frame. -/
theorem c6_close_request_exits (env : Env) (s : LoopState)
    (r : AppResources) (rest : List Event) (hs : s.app = some r)
    (hx : s.exited = false) (hp : s.panicked = false)
    (hc : (env.uiResponse WindowEvent.closeRequested).consumed = false) :
    (runLoop env s (Event.windowEvent r.windowId WindowEvent.closeRequested
        :: rest)).exited = true ∧
    (runLoop env s (Event.windowEvent r.windowId WindowEvent.closeRequested
        :: rest)).framesRendered = s.framesRendered := by
  obtain ⟨app, nid, ex, pa, fr⟩ := s
  obtain rfl : app = some r := hs
  obtain rfl : ex = false := hx
  obtain rfl : pa = false := hp
  have hstep : (App.window_event env ⟨some r, nid, false, false, fr⟩
      r.windowId WindowEvent.closeRequested).1
      = ⟨some r, nid, true, false, fr⟩ := by
    simp [App.window_event, AppResources.on_window_event, hc]
  have hrun : runLoop env ⟨some r, nid, false, false, fr⟩
      (Event.windowEvent r.windowId WindowEvent.closeRequested :: rest)
      = ⟨some r, nid, true, false, fr⟩ := by
    rw [runLoop]
    simp only [Bool.or_self, Bool.false_eq_true, if_false, hstep]
    exact runLoop_of_halted env _ rest (Or.inl rfl)
  rw [hrun]
  exact ⟨rfl, rfl⟩

/-- Witness for C6: from the state after the first resume, a close
request followed by a queued redraw event leaves the loop exited with
zero frames rendered. -/
theorem c6_close_request_exits_witness :
    (runLoop envOk (App.resumed envOk App.new)
        (Event.windowEvent (AppResources.new envOk 0).windowId
            WindowEvent.closeRequested
          :: [Event.windowEvent 0 WindowEvent.redrawRequested])).exited
      = true ∧
    (runLoop envOk (App.resumed envOk App.new)
        (Event.windowEvent (AppResources.new envOk 0).windowId
            WindowEvent.closeRequested
          :: [Event.windowEvent 0 WindowEvent.redrawRequested])).framesRendered
      = (App.resumed envOk App.new).framesRendered :=
  c6_close_request_exits envOk (App.resumed envOk App.new)
    (AppResources.new envOk 0) [Event.windowEvent 0 WindowEvent.redrawRequested]
    rfl rfl rfl rfl

/-- C9: an event addressed to the application window is forwarded to the
UI session first (the forward heads the action trace), and when the UI
reports the event consumed, host handling is skipped entirely: the loop
state is unchanged and the trace holds nothing beyond the forward and a
possible repaint-triggered redraw request. -/
theorem c9_ui_forward_first (env : Env) (s : LoopState) (r : AppResources)
    (we : WindowEvent) (hs : s.app = some r) :
    (App.window_event env s r.windowId we).2.head?
        = some (Action.forwardToUi we) ∧
    ((env.uiResponse we).consumed = true →
      (App.window_event env s r.windowId we).1 = s ∧
      ∀ a ∈ (App.window_event env s r.windowId we).2,
        a = Action.forwardToUi we ∨ a = Action.requestRedraw) := by
  obtain ⟨app, nid, ex, pa, fr⟩ := s
  obtain rfl : app = some r := hs
  constructor
  · cases hcons : (env.uiResponse we).consumed
    · cases we with
      | closeRequested =>
          simp [App.window_event, AppResources.on_window_event, hcons]
      | redrawRequested =>
          cases ha : env.acquireResult fr <;>
            simp [App.window_event, AppResources.on_window_event, hcons, ha]
      | resized size =>
          simp [App.window_event, AppResources.on_window_event, hcons,
            GpuResources.resize]
      | other code =>
          simp [App.window_event, AppResources.on_window_event, hcons]
    · simp [App.window_event, AppResources.on_window_event, hcons]
  · intro hcons
    cases hrp : (env.uiResponse we).repaint <;>
      simp [App.window_event, AppResources.on_window_event, hcons, hrp]

/-- Witness for C9 in the environment whose UI consumes everything: a
close request addressed to the window is forwarded first, consumed, and
the host neither exits nor renders. -/
theorem c9_ui_forward_first_witness :
    (App.window_event envConsume (App.resumed envConsume App.new)
        (AppResources.new envConsume 0).windowId
        WindowEvent.closeRequested).2.head?
        = some (Action.forwardToUi WindowEvent.closeRequested) ∧
    ((envConsume.uiResponse WindowEvent.closeRequested).consumed = true →
      (App.window_event envConsume (App.resumed envConsume App.new)
          (AppResources.new envConsume 0).windowId
          WindowEvent.closeRequested).1 = App.resumed envConsume App.new ∧
      ∀ a ∈ (App.window_event envConsume (App.resumed envConsume App.new)
          (AppResources.new envConsume 0).windowId
          WindowEvent.closeRequested).2,
        a = Action.forwardToUi WindowEvent.closeRequested ∨
          a = Action.requestRedraw) :=
  c9_ui_forward_first envConsume (App.resumed envConsume App.new)
    (AppResources.new envConsume 0) WindowEvent.closeRequested rfl

/-- C10: any window event delivered while the application is still
uninitialized (no resume has created the resources) panics via the
unchecked unwrap in `get_app_resources`; the trace shows nothing else
happened — the event is neither rejected nor ignored. -/
theorem c10_uninitialized_event_panics (env : Env) (s : LoopState)
    (wid : Nat) (we : WindowEvent) (hs : s.app = none) :
    (App.window_event env s wid we).1.panicked = true ∧
    (App.window_event env s wid we).2 = [Action.panicStop] := by
  obtain ⟨app, nid, ex, pa, fr⟩ := s
  obtain rfl : app = none := hs
  exact ⟨rfl, rfl⟩

/-- Witness for C10: a close request delivered to the freshly started,
never-resumed application panics. -/
theorem c10_uninitialized_event_panics_witness :
    (App.window_event envOk App.new 0 WindowEvent.closeRequested).1.panicked
        = true ∧
    (App.window_event envOk App.new 0 WindowEvent.closeRequested).2
        = [Action.panicStop] :=
  c10_uninitialized_event_panics envOk App.new 0 WindowEvent.closeRequested rfl

/-- Witness for C4: from the state after the first resume, an
unconsumed redraw request renders the first frame and queues the next
redraw. -/
theorem c4_redraw_renders_then_requests_witness :
    (App.window_event envOk (App.resumed envOk App.new)
        (AppResources.new envOk 0).windowId
        WindowEvent.redrawRequested).1.framesRendered
      = (App.resumed envOk App.new).framesRendered + 1 ∧
    ∃ pre, (App.window_event envOk (App.resumed envOk App.new)
        (AppResources.new envOk 0).windowId WindowEvent.redrawRequested).2
      = pre ++ [Action.renderFrame, Action.requestRedraw] :=
  c4_redraw_renders_then_requests envOk (App.resumed envOk App.new)
    (AppResources.new envOk 0) rfl rfl rfl

/-- The head of a filtered list is the first element satisfying the
predicate. -/
theorem head?_filter_eq_find? {α : Type} (p : α → Bool) :
    ∀ l : List α, (l.filter p).head? = l.find? p
  | [] => rfl
  | a :: l => by
    cases h : p a <;>
      simp [List.filter_cons, List.find?, h, head?_filter_eq_find? p l]

/-- C7: when at least one reported capability format is sRGB, the chosen
surface format is the first such format; when no reported format is
sRGB, the chosen format is the first reported one; and the chosen
adapter is the first enumerated adapter that supports the surface. -/
theorem c7_startup_selection (formats fs : List TextureFormat)
    (adapters : List Adapter)
    (hsrgb : ∃ f ∈ formats, f.is_srgb = true)
    (hnone : ∀ f ∈ fs, f.is_srgb = false) :
    chooseSurfaceFormat formats = formats.find? (fun f => f.is_srgb) ∧
    chooseSurfaceFormat fs = fs.head? ∧
    chooseAdapter adapters = adapters.find? (fun a => a.surfaceSupport) := by
  refine ⟨?_, ?_, head?_filter_eq_find? _ adapters⟩
  · have hsome : (formats.find? (fun f => f.is_srgb)).isSome := by
      rw [List.find?_isSome]
      obtain ⟨f, hf, hp⟩ := hsrgb
      exact ⟨f, hf, hp⟩
    obtain ⟨g, hg⟩ := Option.isSome_iff_exists.mp hsome
    rw [chooseSurfaceFormat, head?_filter_eq_find?, hg]
  · have hemp : fs.filter (fun f => f.is_srgb) = [] := by
      rw [List.filter_eq_nil_iff]
      intro a ha
      simp [hnone a ha]
    rw [chooseSurfaceFormat, hemp]
    rfl

/-- Witness for C7 at a capability list whose first sRGB format sits
behind a non-sRGB one, a capability list with no sRGB format, and an
adapter list whose first surface-supporting adapter is the second. -/
theorem c7_startup_selection_witness :
    chooseSurfaceFormat [⟨0, false⟩, ⟨1, true⟩, ⟨2, true⟩]
        = List.find? (fun f => f.is_srgb) [⟨0, false⟩, ⟨1, true⟩, ⟨2, true⟩] ∧
    chooseSurfaceFormat [⟨5, false⟩] = List.head? [⟨5, false⟩] ∧
    chooseAdapter [⟨0, false⟩, ⟨1, true⟩]
        = List.find? (fun a => a.surfaceSupport) [⟨0, false⟩, ⟨1, true⟩] :=
  c7_startup_selection [⟨0, false⟩, ⟨1, true⟩, ⟨2, true⟩] [⟨5, false⟩]
    [⟨0, false⟩, ⟨1, true⟩] (by decide) (by decide)

/-- C8: for every slider value in the slider's range [0, 360], the
progress-bar fraction of the same frame is the value divided by 360; it
lies in [0, 1], is 0 at slider value 0 and 1 at slider value 360. -/
theorem c8_progress_fraction (g : WidgetGallery)
    (h0 : 0 ≤ g.scalar) (h1 : g.scalar ≤ 360) :
    g.progress = g.scalar / 360 ∧ 0 ≤ g.progress ∧ g.progress ≤ 1 ∧
    (g.scalar = 0 → g.progress = 0) ∧ (g.scalar = 360 → g.progress = 1) := by
  refine ⟨rfl, ?_, ?_, ?_, ?_⟩
  · show (0 : ℚ) ≤ g.scalar / 360
    exact div_nonneg h0 (by norm_num)
  · show g.scalar / 360 ≤ 1
    rw [div_le_one (by norm_num : (0 : ℚ) < 360)]
    exact h1
  · intro h
    show g.scalar / 360 = 0
    rw [h, zero_div]
  · intro h
    show g.scalar / 360 = 1
    rw [h]
    norm_num

/-- Witness for C8 at the gallery's default state (slider value 42): the
fraction is 42/360, inside [0, 1]. -/
theorem c8_progress_fraction_witness :
    WidgetGallery.default.progress = WidgetGallery.default.scalar / 360 ∧
    0 ≤ WidgetGallery.default.progress ∧
    WidgetGallery.default.progress ≤ 1 ∧
    (WidgetGallery.default.scalar = 0 → WidgetGallery.default.progress = 0) ∧
    (WidgetGallery.default.scalar = 360 → WidgetGallery.default.progress = 1) :=
  c8_progress_fraction WidgetGallery.default
    (by norm_num [WidgetGallery.default]) (by norm_num [WidgetGallery.default])

end EguiStub
